import Mathlib

/-!
Shallow embedding of the HubLab API code-generation core (src/index.js):
the capsule-tree data model, the three fragment translators
(SwiftUI, Jetpack Compose, React), the per-backend file assemblers,
countCapsules, and the orchestrating POST /generate handler.
Braces and apostrophes that occur in generated source text are written
with hex escapes (\x7b, \x7d, \x27) inside string literals.
-/

/-- Prop bag of a capsule node: the keys the translators read, each optional
(an absent key models JS undefined). Values are typed per their use in the
source (strings, booleans, integer percentages/bounds). -/
structure Props where
  text : Option String := none
  content : Option String := none
  placeholder : Option String := none
  title : Option String := none
  label : Option String := none
  onPress : Option String := none
  type : Option String := none
  checked : Option Bool := none
  value : Option Int := none
  min : Option Int := none
  max : Option Int := none
deriving Repr, DecidableEq

/-- CapsuleInstance: id, capsuleId tag, prop bag, ordered children. -/
inductive Capsule where
  | mk (id : String) (capsuleId : String) (props : Props) (children : List Capsule)
deriving Repr

def Capsule.id : Capsule → String
  | .mk i _ _ _ => i

def Capsule.capsuleId : Capsule → String
  | .mk _ c _ _ => c

def Capsule.props : Capsule → Props
  | .mk _ _ p _ => p

def Capsule.children : Capsule → List Capsule
  | .mk _ _ _ cs => cs

structure ThemeColors where
  primary : Option String := none
  secondary : Option String := none
deriving Repr, DecidableEq

structure Theme where
  colors : Option ThemeColors := none
deriving Repr, DecidableEq

structure Navigation where
  type : Option String := none
  initialScreen : Option String := none
deriving Repr, DecidableEq

structure AndroidConfig where
  packageName : Option String := none
deriving Repr, DecidableEq

structure PlatformConfig where
  android : Option AndroidConfig := none
deriving Repr, DecidableEq

/-- Screen: id, display name, optional root capsule (may be absent). -/
structure Screen where
  id : String
  name : String
  root : Option Capsule := none
deriving Repr

/-- A validated project document, as consumed by the generators after the
handler's required-field guard has passed. -/
structure Project where
  name : String
  version : Option String := none
  targets : List String := []
  screens : List Screen := []
  theme : Option Theme := none
  navigation : Option Navigation := none
  platformConfig : Option PlatformConfig := none
deriving Repr

structure GeneratedFile where
  path : String
  language : String
  content : String
deriving Repr, DecidableEq

/-- JS `x || d` for an optional string: undefined and the empty string are
falsy and select the default. -/
def jsOrStr : Option String → String → String
  | none, d => d
  | some s, d => if s = "" then d else s

/-- JS `x || d` for an optional number: undefined and 0 are falsy. -/
def jsOrInt : Option Int → Int → Int
  | none, d => d
  | some n, d => if n = 0 then d else n

/-- JS `x || d` for an optional boolean: undefined and false are falsy. -/
def jsOrBool : Option Bool → Bool → Bool
  | none, d => d
  | some b, d => if b then b else d

/-- JS truthiness of an optional string (`x ? _ : _`). -/
def strTruthy : Option String → Bool
  | none => false
  | some s => s != ""

/-- JS truthiness of an optional boolean. -/
def boolTruthy : Option Bool → Bool
  | none => false
  | some b => b

/-- The character class of the JS regex \s (whitespace code points). -/
def jsWhitespace (c : Char) : Bool :=
  c == ' ' || c == '\t' || c == '\n' || c == '\r' || c == '\x0b' || c == '\x0c' ||
  c == '\u00A0' || c == '\u1680' || ('\u2000' ≤ c && c ≤ '\u200A') ||
  c == '\u2028' || c == '\u2029' || c == '\u202F' || c == '\u205F' ||
  c == '\u3000' || c == '\uFEFF'

/-- JS `str.replace(/\s+/g, "")`: remove every whitespace character. -/
def stripWhitespace (s : String) : String :=
  String.mk (s.data.filter (fun c => !jsWhitespace c))

/-- JS `str.charAt(0).toUpperCase() + str.slice(1)` (src capitalize). -/
def capitalize (str : String) : String :=
  match str.data with
  | [] => ""
  | c :: cs => String.mk (Char.toUpper c :: cs)

/-- String rendering of the JS number n/100 for an integer n, as produced by
the template interpolation of `(props.value || 50) / 100`: a terminating
decimal with no trailing zeros (50 renders as 0.5, 0 as 0, 100 as 1). -/
def div100Str (n : Int) : String :=
  let sign := if n < 0 then "-" else ""
  let ip := toString (n.natAbs / 100)
  let fp := n.natAbs % 100
  if fp = 0 then sign ++ ip
  else if fp % 10 = 0 then sign ++ ip ++ "." ++ toString (fp / 10)
  else if fp < 10 then sign ++ ip ++ ".0" ++ toString fp
  else sign ++ ip ++ "." ++ toString fp

/-- Concatenation of the pieces of one JS template literal, in order. -/
def strCat (parts : List String) : String :=
  parts.foldr (fun a b => a ++ b) ""

/-- The switch statement of generateSwiftUIComponent: dispatch on capsuleId,
given the prop bag, whether the node owns children, and the children's
fragments already joined by the SwiftUI separator. -/
def swiftUISwitch (capsuleId : String) (props : Props) (hasChildren : Bool)
    (childContent : String) : String :=
  match capsuleId with
  | "button" => strCat ["Button(action: \x7b /* ", jsOrStr props.onPress "action",
      " */ \x7d) \x7b\n            Text(\"", jsOrStr props.text "Button",
      "\")\n        \x7d\n        .buttonStyle(.borderedProminent)"]
  | "text" => strCat ["Text(\"", jsOrStr props.content (jsOrStr props.text ""), "\")"]
  | "input" => strCat ["TextField(\"", jsOrStr props.placeholder "",
      "\", text: .constant(\"\"))\n            .textFieldStyle(.roundedBorder)"]
  | "card" => strCat ["VStack(alignment: .leading, spacing: 16) \x7b\n            ",
      (if strTruthy props.title then
        strCat ["Text(\"", props.title.getD "", "\").font(.headline)"]
      else ""),
      "\n            ", childContent,
      "\n        \x7d\n        .padding()\n        .background(Color(.systemBackground))\n        .cornerRadius(12)\n        .shadow(radius: 4)"]
  | "list" => "List \x7b\n            ForEach(0..<5, id: \\.self) \x7b index in\n                Text(\"Item \\(index + 1)\")\n            \x7d\n        \x7d\n        .listStyle(.plain)"
  | "progress" => strCat ["ProgressView(value: ", div100Str (jsOrInt props.value 50),
      ")\n            .progressViewStyle(.linear)"]
  | "switch" => strCat ["Toggle(\"", jsOrStr props.label "", "\", isOn: .constant(",
      toString (jsOrBool props.checked false), "))"]
  | "chart" => "// Chart - requires iOS 16+ and Charts framework\n        Chart \x7b\n            // Add chart data\n        \x7d\n        .frame(height: 200)"
  | "searchbar" => strCat ["TextField(\"", jsOrStr props.placeholder "Search...",
      "\", text: .constant(\"\"))\n            .textFieldStyle(.roundedBorder)\n            .overlay(\n                HStack \x7b\n                    Image(systemName: \"magnifyingglass\")\n                        .foregroundColor(.gray)\n                        .padding(.leading, 8)\n                    Spacer()\n                \x7d\n            )"]
  | "slider" => strCat ["Slider(value: .constant(", div100Str (jsOrInt props.value 50),
      "), in: ", toString (jsOrInt props.min 0), "...", toString (jsOrInt props.max 100), ")"]
  | "divider" => "Divider()"
  | _ =>
    if hasChildren then
      strCat ["VStack(spacing: 16) \x7b\n            ", childContent, "\n        \x7d"]
    else strCat ["// TODO: ", capsuleId, "\n        Text(\"", capsuleId, "\")"]

mutual

/-- generateSwiftUIComponent on a non-null node: children are translated
first and joined by the SwiftUI separator (the source's
`children?.map(...).join(...) || ""` is the plain join, since an empty
join already yields the empty string). -/
def generateSwiftUIComponentN : Capsule → Option Theme → String
  | .mk _ capsuleId props children, theme =>
    swiftUISwitch capsuleId props (!children.isEmpty)
      (String.intercalate "\n                " (swiftChildFrags children theme))

/-- The children map of generateSwiftUIComponent. -/
def swiftChildFrags : List Capsule → Option Theme → List String
  | [], _ => []
  | c :: cs, theme => generateSwiftUIComponentN c theme :: swiftChildFrags cs theme

end

/-- generateSwiftUIComponent (src/index.js lines 157-237); a null instance
yields the explicit empty fragment. -/
def generateSwiftUIComponent : Option Capsule → Option Theme → String
  | none, _ => "EmptyView()"
  | some c, theme => generateSwiftUIComponentN c theme

/-- generateSwiftUI (src/index.js lines 75-155): app entry, ContentView with
navigation, then one file per screen. -/
def generateSwiftUI (project : Project) : List GeneratedFile :=
  let appName := stripWhitespace project.name
  let entryFile : GeneratedFile :=
    { path := appName ++ "App.swift", language := "swift",
      content := strCat ["import SwiftUI\n\n@main\nstruct ", appName,
        "App: App \x7b\n    var body: some Scene \x7b\n        WindowGroup \x7b\n            ContentView()\n        \x7d\n    \x7d\n\x7d"] }
  let navType := jsOrStr (project.navigation.bind Navigation.type) "stack"
  let contentBody :=
    if navType = "tabs" ∧ 1 < project.screens.length then
      let tabs := String.intercalate "\n" (project.screens.map (fun s =>
        strCat ["            ", capitalize s.id,
          "View()\n                .tabItem \x7b\n                    Label(\"", s.name,
          "\", systemImage: \"star\")\n                \x7d"]))
      strCat ["TabView \x7b\n", tabs, "\n        \x7d"]
    else
      let initialView := capitalize (jsOrStr ((project.screens.head?).map Screen.id) "Home") ++ "View"
      strCat ["NavigationStack \x7b\n            ", initialView, "()\n        \x7d"]
  let contentFile : GeneratedFile :=
    { path := "ContentView.swift", language := "swift",
      content := strCat ["import SwiftUI\n\nstruct ContentView: View \x7b\n    var body: some View \x7b\n        ",
        contentBody,
        "\n    \x7d\n\x7d\n\n#Preview \x7b\n    ContentView()\n\x7d"] }
  [entryFile, contentFile] ++ project.screens.map (fun screen =>
    let viewName := capitalize screen.id ++ "View"
    { path := viewName ++ ".swift", language := "swift",
      content := strCat ["import SwiftUI\n\nstruct ", viewName,
        ": View \x7b\n    var body: some View \x7b\n        ",
        generateSwiftUIComponent screen.root project.theme,
        "\n            .navigationTitle(\"", screen.name,
        "\")\n    \x7d\n\x7d\n\n#Preview \x7b\n    NavigationStack \x7b\n        ",
        viewName, "()\n    \x7d\n\x7d"] })

/-- The switch statement of generateComposeComponent. -/
def composeSwitch (capsuleId : String) (props : Props) (hasChildren : Bool)
    (childContent : String) : String :=
  match capsuleId with
  | "button" => strCat ["Button(onClick = \x7b /* ", jsOrStr props.onPress "action",
      " */ \x7d) \x7b\n            Text(\"", jsOrStr props.text "Button", "\")\n        \x7d"]
  | "text" => strCat ["Text(\"", jsOrStr props.content (jsOrStr props.text ""), "\")"]
  | "input" => strCat ["var text by remember \x7b mutableStateOf(\"\") \x7d\n        OutlinedTextField(\n            value = text,\n            onValueChange = \x7b text = it \x7d,\n            label = \x7b Text(\"",
      jsOrStr props.label "", "\") \x7d,\n            placeholder = \x7b Text(\"",
      jsOrStr props.placeholder "",
      "\") \x7d,\n            modifier = Modifier.fillMaxWidth()\n        )"]
  | "card" => strCat ["Card(modifier = Modifier.fillMaxWidth()) \x7b\n            Column(modifier = Modifier.padding(16.dp)) \x7b\n                ",
      (if strTruthy props.title then
        strCat ["Text(\"", props.title.getD "", "\", style = MaterialTheme.typography.titleMedium)"]
      else ""),
      "\n                ", childContent, "\n            \x7d\n        \x7d"]
  | "list" => "LazyColumn \x7b\n            items(5) \x7b index ->\n                ListItem(headlineContent = \x7b Text(\"Item $\x7bindex + 1\x7d\") \x7d)\n            \x7d\n        \x7d"
  | "progress" => strCat ["LinearProgressIndicator(\n            progress = \x7b ",
      div100Str (jsOrInt props.value 50),
      "f \x7d,\n            modifier = Modifier.fillMaxWidth()\n        )"]
  | "switch" => strCat ["var checked by remember \x7b mutableStateOf(",
      toString (jsOrBool props.checked false),
      ") \x7d\n        Row(verticalAlignment = Alignment.CenterVertically) \x7b\n            Text(\"",
      jsOrStr props.label "",
      "\")\n            Spacer(Modifier.weight(1f))\n            Switch(checked = checked, onCheckedChange = \x7b checked = it \x7d)\n        \x7d"]
  | "slider" => strCat ["var value by remember \x7b mutableFloatStateOf(",
      div100Str (jsOrInt props.value 50),
      "f) \x7d\n        Slider(\n            value = value,\n            onValueChange = \x7b value = it \x7d,\n            valueRange = ",
      toString (jsOrInt props.min 0), "f..", toString (jsOrInt props.max 100), "f\n        )"]
  | "divider" => "HorizontalDivider()"
  | "searchbar" => strCat ["var query by remember \x7b mutableStateOf(\"\") \x7d\n        OutlinedTextField(\n            value = query,\n            onValueChange = \x7b query = it \x7d,\n            placeholder = \x7b Text(\"",
      jsOrStr props.placeholder "Search...",
      "\") \x7d,\n            leadingIcon = \x7b Icon(Icons.Default.Search, \"Search\") \x7d,\n            modifier = Modifier.fillMaxWidth()\n        )"]
  | _ =>
    if hasChildren then
      strCat ["Column \x7b\n            ", childContent, "\n        \x7d"]
    else strCat ["// TODO: ", capsuleId, "\n        Text(\"", capsuleId, "\")"]

mutual

/-- generateComposeComponent on a non-null node: the join separator inserts a
Spacer element between sibling fragments. -/
def generateComposeComponentN : Capsule → Option Theme → String
  | .mk _ capsuleId props children, theme =>
    composeSwitch capsuleId props (!children.isEmpty)
      (String.intercalate "\n        Spacer(Modifier.height(8.dp))\n        "
        (composeChildFrags children theme))

/-- The children map of generateComposeComponent. -/
def composeChildFrags : List Capsule → Option Theme → List String
  | [], _ => []
  | c :: cs, theme => generateComposeComponentN c theme :: composeChildFrags cs theme

end

/-- generateComposeComponent (src/index.js lines 305-390). -/
def generateComposeComponent : Option Capsule → Option Theme → String
  | none, _ => "Text(\"Empty\")"
  | some c, theme => generateComposeComponentN c theme

/-- generateJetpackCompose (src/index.js lines 239-303): MainActivity, then
one file per screen. -/
def generateJetpackCompose (project : Project) : List GeneratedFile :=
  let packageName :=
    jsOrStr ((project.platformConfig.bind PlatformConfig.android).bind AndroidConfig.packageName)
      "com.hublab.app"
  let appName := stripWhitespace project.name
  let mainActivity : GeneratedFile :=
    { path := "MainActivity.kt", language := "kotlin",
      content := strCat ["package ", packageName,
        "\n\nimport android.os.Bundle\nimport androidx.activity.ComponentActivity\nimport androidx.activity.compose.setContent\nimport androidx.compose.material3.*\nimport androidx.compose.runtime.*\nimport ",
        packageName, ".ui.theme.", appName,
        "Theme\n\nclass MainActivity : ComponentActivity() \x7b\n    override fun onCreate(savedInstanceState: Bundle?) \x7b\n        super.onCreate(savedInstanceState)\n        setContent \x7b\n            ",
        appName,
        "Theme \x7b\n                Surface(color = MaterialTheme.colorScheme.background) \x7b\n                    ",
        capitalize (jsOrStr ((project.screens.head?).map Screen.id) "Main"),
        "Screen()\n                \x7d\n            \x7d\n        \x7d\n    \x7d\n\x7d"] }
  [mainActivity] ++ project.screens.map (fun screen =>
    let screenName := capitalize screen.id ++ "Screen"
    { path := screenName ++ ".kt", language := "kotlin",
      content := strCat ["package ", packageName,
        ".screens\n\nimport androidx.compose.foundation.layout.*\nimport androidx.compose.foundation.lazy.LazyColumn\nimport androidx.compose.material3.*\nimport androidx.compose.runtime.*\nimport androidx.compose.ui.Alignment\nimport androidx.compose.ui.Modifier\nimport androidx.compose.ui.unit.dp\n\n@Composable\nfun ",
        screenName,
        "() \x7b\n    Column(\n        modifier = Modifier\n            .fillMaxSize()\n            .padding(16.dp)\n    ) \x7b\n        ",
        generateComposeComponent screen.root project.theme,
        "\n    \x7d\n\x7d"] })

/-- The switch statement of generateReactComponent. -/
def reactSwitch (capsuleId : String) (props : Props) (hasChildren : Bool)
    (childContent : String) : String :=
  match capsuleId with
  | "button" => strCat ["<button\n        onClick=\x7b() => \x7b /* ",
      jsOrStr props.onPress "action",
      " */ \x7d\x7d\n        className=\"px-4 py-2 bg-primary text-white rounded-lg hover:opacity-90\"\n      >\n        ",
      jsOrStr props.text "Button", "\n      </button>"]
  | "text" => strCat ["<p>", jsOrStr props.content (jsOrStr props.text ""), "</p>"]
  | "input" => strCat ["<input\n        type=\"", jsOrStr props.type "text",
      "\"\n        placeholder=\"", jsOrStr props.placeholder "",
      "\"\n        className=\"w-full px-3 py-2 border rounded-lg focus:ring-2 focus:ring-primary\"\n      />"]
  | "card" => strCat ["<div className=\"bg-white rounded-xl shadow-md p-4\">\n        ",
      (if strTruthy props.title then
        strCat ["<h3 className=\"text-lg font-semibold mb-2\">", props.title.getD "", "</h3>"]
      else ""),
      "\n        ", childContent, "\n      </div>"]
  | "list" => "<ul className=\"divide-y\">\n        \x7b[1, 2, 3, 4, 5].map(i => (\n          <li key=\x7bi\x7d className=\"py-3\">Item \x7bi\x7d</li>\n        ))\x7d\n      </ul>"
  | "progress" => strCat ["<div className=\"w-full bg-gray-200 rounded-full h-2\">\n        <div className=\"bg-primary h-2 rounded-full\" style=\x7b\x7b width: \x27",
      toString (jsOrInt props.value 50),
      "%\x27 \x7d\x7d />\n      </div>"]
  | "switch" => strCat ["<label className=\"flex items-center gap-2\">\n        <input type=\"checkbox\" className=\"toggle\" ",
      (if boolTruthy props.checked then "defaultChecked" else ""),
      " />\n        <span>", jsOrStr props.label "", "</span>\n      </label>"]
  | _ =>
    if hasChildren then
      strCat ["<div className=\"space-y-4\">\n        ", childContent, "\n      </div>"]
    else strCat ["<div>\x7b/* TODO: ", capsuleId, " */\x7d</div>"]

mutual

/-- generateReactComponent on a non-null node. The source computes a local
`primary` color from the theme but never uses it in any branch. -/
def generateReactComponentN : Capsule → Option Theme → String
  | .mk _ capsuleId props children, theme =>
    reactSwitch capsuleId props (!children.isEmpty)
      (String.intercalate "\n        " (reactChildFrags children theme))

/-- The children map of generateReactComponent. -/
def reactChildFrags : List Capsule → Option Theme → List String
  | [], _ => []
  | c :: cs, theme => generateReactComponentN c theme :: reactChildFrags cs theme

end

/-- generateReactComponent (src/index.js lines 458-516). -/
def generateReactComponent : Option Capsule → Option Theme → String
  | none, _ => "<div />"
  | some c, theme => generateReactComponentN c theme

/-- generateReact (src/index.js lines 392-456): App.tsx, one page per screen,
then the shared tailwind.config.js carrying theme colors. -/
def generateReact (project : Project) : List GeneratedFile :=
  let imports := String.intercalate "\n" (project.screens.map (fun s =>
    strCat ["import ", capitalize s.id, "Page from \x27./pages/", s.id, "\x27"]))
  let appFile : GeneratedFile :=
    { path := "App.tsx", language := "typescript",
      content := strCat ["import React from \x27react\x27\n", imports,
        "\n\nexport default function App() \x7b\n  return (\n    <div className=\"min-h-screen bg-gray-50\">\n      <",
        capitalize (jsOrStr ((project.screens.head?).map Screen.id) "Home"),
        "Page />\n    </div>\n  )\n\x7d"] }
  let tailwindFile : GeneratedFile :=
    { path := "tailwind.config.js", language := "javascript",
      content := strCat ["module.exports = \x7b\n  content: [\x27./src/**/*.\x7bjs,ts,jsx,tsx\x7d\x27],\n  theme: \x7b\n    extend: \x7b\n      colors: \x7b\n        primary: \x27",
        jsOrStr ((project.theme.bind Theme.colors).bind ThemeColors.primary) "#6366F1",
        "\x27,\n        secondary: \x27",
        jsOrStr ((project.theme.bind Theme.colors).bind ThemeColors.secondary) "#8B5CF6",
        "\x27,\n      \x7d\n    \x7d\n  \x7d,\n  plugins: []\n\x7d"] }
  [appFile] ++ project.screens.map (fun screen =>
    let pageName := capitalize screen.id ++ "Page"
    { path := strCat ["pages/", screen.id, ".tsx"], language := "typescript",
      content := strCat ["import React from \x27react\x27\n\nexport default function ",
        pageName,
        "() \x7b\n  return (\n    <div className=\"container mx-auto p-4\">\n      <h1 className=\"text-2xl font-bold mb-4\">",
        screen.name, "</h1>\n      ",
        generateReactComponent screen.root project.theme,
        "\n    </div>\n  )\n\x7d"] }) ++ [tailwindFile]

mutual

/-- countCapsules on a non-null node (src/index.js lines 522-531): the
source accumulates left-to-right from 1; the sum is reassociated here, which
does not change its value. -/
def countCapsulesN : Capsule → Nat
  | .mk _ _ _ children => 1 + countCapsulesAux children

/-- The loop of countCapsules over a children list. -/
def countCapsulesAux : List Capsule → Nat
  | [] => 0
  | c :: rest => countCapsulesN c + countCapsulesAux rest

end

/-- countCapsules: a null instance counts 0. -/
def countCapsules : Option Capsule → Nat
  | none => 0
  | some c => countCapsulesN c

structure Metadata where
  capsuleCount : Nat
  screenCount : Nat
  generatedAt : String
deriving Repr, DecidableEq

structure GenResult where
  success : Bool
  platform : String
  files : List GeneratedFile
  metadata : Metadata
deriving Repr, DecidableEq

structure ProjectInfo where
  name : String
  version : Option String
deriving Repr, DecidableEq

structure Summary where
  totalPlatforms : Nat
  totalFiles : Nat
  totalCapsules : Nat
  totalScreens : Nat
deriving Repr, DecidableEq

structure GenResponse where
  success : Bool
  project : ProjectInfo
  results : List GenResult
  summary : Summary
deriving Repr, DecidableEq

structure ErrResponse where
  status : Nat
  error : String
deriving Repr, DecidableEq

/-- The `required` list of the schema document served at GET /schema
(src/index.js line 52). -/
def schemaRequired : List String :=
  ["name", "version", "targets", "screens", "theme"]

/-- The 400 response of the handler's required-field guard; its message
names only the four fields the guard actually tests. -/
def missingFieldsError : ErrResponse :=
  { status := 400, error := "Missing required fields: name, targets, screens, theme" }

/-- The target switch of the POST /generate loop: `files` starts empty and
the switch has no default case, so an unrecognized target leaves it empty. -/
def targetFiles (project : Project) (target : String) : List GeneratedFile :=
  match target with
  | "ios" => generateSwiftUI project
  | "android" => generateJetpackCompose project
  | "web" => generateReact project
  | "desktop" => generateReact project
  | _ => []

/-- The raw request body of POST /generate: every top-level field may be
absent. -/
structure ReqBody where
  name : Option String := none
  version : Option String := none
  targets : Option (List String) := none
  screens : Option (List Screen) := none
  theme : Option Theme := none
  navigation : Option Navigation := none
  platformConfig : Option PlatformConfig := none

/-- POST /generate (src/index.js lines 558-625). The guard tests the JS
truthiness of name, targets, screens and theme only (an absent field, or an
empty name string, fails it; an array or object present is always truthy).
The timestamp argument stands for `new Date().toISOString()`. -/
def postGenerate (body : ReqBody) (now : String) : Except ErrResponse GenResponse :=
  match body.name, body.targets, body.screens, body.theme with
  | some name, some targets, some screens, some theme =>
    if name = "" then .error missingFieldsError
    else
      let project : Project :=
        { name := name, version := body.version, targets := targets, screens := screens,
          theme := some theme, navigation := body.navigation,
          platformConfig := body.platformConfig }
      let totalCapsules := screens.foldl (fun acc s => acc + countCapsules s.root) 0
      let results := targets.map (fun target =>
        { success := true, platform := target, files := targetFiles project target,
          metadata := { capsuleCount := totalCapsules, screenCount := screens.length,
                        generatedAt := now } : GenResult })
      .ok { success := true,
            project := { name := name, version := body.version },
            results := results,
            summary := { totalPlatforms := results.length,
                         totalFiles := results.foldl (fun acc r => acc + r.files.length) 0,
                         totalCapsules := totalCapsules,
                         totalScreens := screens.length } }
  | _, _, _, _ => .error missingFieldsError

/-- A capsule node of a possibly cyclic object graph: children are
references (indices) into the graph, as JS object references permit. -/
structure GNode where
  capsuleId : String
  props : Props
  children : List Nat
deriving Repr

/-- Collect the results of the children map; none as soon as one child
evaluation was cut off. -/
def optionsAll : List (Option String) → Option (List String)
  | [] => some []
  | none :: _ => none
  | some s :: rest => (optionsAll rest).map (fun fs => s :: fs)

/-- generateSwiftUIComponent evaluated on the object graph with an explicit
stack budget: each nested call consumes one unit, and a result of none means
the budget was exhausted before the translation finished - the behavior of
the unguarded source recursion on a graph needing more stack than exists. -/
def genSwiftFuelNode (g : List GNode) (fuel : Nat) (i : Nat) : Option String :=
  match fuel with
  | 0 => none
  | f + 1 =>
    match g.get? i with
    | none => some "EmptyView()"
    | some node =>
      match optionsAll (node.children.map (fun j => genSwiftFuelNode g f j)) with
      | none => none
      | some frags =>
        some (swiftUISwitch node.capsuleId node.props (!node.children.isEmpty)
          (String.intercalate "\n                " frags))
termination_by fuel

/-- The one node graph whose children list contains the node itself: the
cyclic malformed tree of the spec's cycle-safety scenario. -/
def cycleGraph : List GNode :=
  [{ capsuleId := "card", props := {}, children := [0] }]

/-- Erase the generatedAt field of one result. -/
def eraseResultTimestamp (r : GenResult) : GenResult :=
  { r with metadata := { r.metadata with generatedAt := "" } }

/-- Erase every generatedAt field of a handler outcome. -/
def eraseTimestamps : Except ErrResponse GenResponse → Except ErrResponse GenResponse
  | .error e => .error e
  | .ok resp => .ok { resp with results := resp.results.map eraseResultTimestamp }

/-- Replace the value prop of a node, keeping everything else. -/
def withValue : Capsule → Option Int → Capsule
  | .mk i cid props children, v => .mk i cid { props with value := v } children

/-- A slider capsule without a value prop and without children. -/
def sliderNoValue : Capsule := .mk "s" "slider" {} []

/-- A progress capsule without a value prop and without children. -/
def progNoValue : Capsule := .mk "p" "progress" {} []

/-- A project whose name starts with a lowercase letter. -/
def c8Project : Project := { name := "todo app" }

/-- A request body whose only target is the unrecognized platform "tv". -/
def c1Body : ReqBody :=
  { name := some "A", targets := some ["tv"], screens := some [], theme := some {} }

/-- A request body with every guard-checked field present but no version. -/
def c2Body : ReqBody :=
  { name := some "App", targets := some ["ios"],
    screens := some [{ id := "home", name := "Home" }], theme := some {} }

theorem str_append_ne_left (a b : String) (h : a ≠ "") : a ++ b ≠ "" := by
  intro hab
  apply h
  have h2 := congrArg String.data hab
  rw [String.data_append] at h2
  have h3 : a.data = [] ∧ b.data = [] := List.append_eq_nil.mp h2
  cases a
  simp_all

theorem strCat_ne_empty (a : String) (l : List String) (h : a ≠ "") :
    strCat (a :: l) ≠ "" :=
  str_append_ne_left a (strCat l) h

theorem swiftUISwitch_ne_empty (capsuleId : String) (props : Props)
    (hasChildren : Bool) (childContent : String) :
    swiftUISwitch capsuleId props hasChildren childContent ≠ "" := by
  unfold swiftUISwitch
  split <;>
    first
      | exact strCat_ne_empty _ _ (by decide)
      | decide
      | (split <;> exact strCat_ne_empty _ _ (by decide))

theorem composeSwitch_ne_empty (capsuleId : String) (props : Props)
    (hasChildren : Bool) (childContent : String) :
    composeSwitch capsuleId props hasChildren childContent ≠ "" := by
  unfold composeSwitch
  split <;>
    first
      | exact strCat_ne_empty _ _ (by decide)
      | decide
      | (split <;> exact strCat_ne_empty _ _ (by decide))

theorem reactSwitch_ne_empty (capsuleId : String) (props : Props)
    (hasChildren : Bool) (childContent : String) :
    reactSwitch capsuleId props hasChildren childContent ≠ "" := by
  unfold reactSwitch
  split <;>
    first
      | exact strCat_ne_empty _ _ (by decide)
      | decide
      | (split <;> exact strCat_ne_empty _ _ (by decide))

/-- C4: each fragment translator is total over capsuleId: for every
CapsuleInstance, whatever its capsuleId string (known, unknown or empty),
and also for a null instance, the translator returns non-empty fragment
text; being total Lean functions, the translators cannot throw or abort. -/
theorem c4_translators_total (inst : Option Capsule) (theme : Option Theme) :
    generateSwiftUIComponent inst theme ≠ "" ∧
    generateComposeComponent inst theme ≠ "" ∧
    generateReactComponent inst theme ≠ "" := by
  refine ⟨?_, ?_, ?_⟩ <;> cases inst with
  | none =>
    simp only [generateSwiftUIComponent, generateComposeComponent, generateReactComponent]
    decide
  | some c =>
    cases c with
    | mk i cid props children =>
      first
        | (show generateSwiftUIComponent _ _ ≠ ""
           simp only [generateSwiftUIComponent, generateSwiftUIComponentN]
           exact swiftUISwitch_ne_empty _ _ _ _)
        | (show generateComposeComponent _ _ ≠ ""
           simp only [generateComposeComponent, generateComposeComponentN]
           exact composeSwitch_ne_empty _ _ _ _)
        | (show generateReactComponent _ _ ≠ ""
           simp only [generateReactComponent, generateReactComponentN]
           exact reactSwitch_ne_empty _ _ _ _)

/-- C5: for a project with k screens the iOS generator emits 2 + k files,
the Android generator 1 + k files, and the web/desktop generator 2 + k
files. -/
theorem c5_manifest_counts (project : Project) :
    (generateSwiftUI project).length = 2 + project.screens.length ∧
    (generateJetpackCompose project).length = 1 + project.screens.length ∧
    (generateReact project).length = 2 + project.screens.length := by
  refine ⟨?_, ?_, ?_⟩ <;>
    simp [generateSwiftUI, generateJetpackCompose, generateReact] <;> omega

theorem countCapsulesAux_eq_sum (l : List Capsule) :
    countCapsulesAux l = (l.map countCapsulesN).sum := by
  induction l with
  | nil => rfl
  | cons c cs ih => simp [countCapsulesAux, ih]

/-- C6: countCapsules satisfies the recurrence: a null node counts 0, and a
non-null node counts 1 plus the sum of its children's counts (an isolated
root counts 1). -/
theorem c6_countCapsules_recurrence :
    countCapsules none = 0 ∧
    ∀ c : Capsule, countCapsules (some c) =
      1 + (c.children.map (fun ch => countCapsules (some ch))).sum := by
  refine ⟨rfl, fun c => ?_⟩
  cases c with
  | mk i cid props children =>
    simp [countCapsules, countCapsulesN, Capsule.children, countCapsulesAux_eq_sum]

/-- C8 counterexample: the project named "todo app" yields the app-entry
file "todoappApp.swift": whitespace is stripped but the first letter is NOT
capitalized, so the name differs from the capitalized "TodoappApp.swift"
the claim requires. -/
theorem c8_lowercase_counterexample :
    ((generateSwiftUI c8Project).map GeneratedFile.path).head? =
      some "todoappApp.swift" ∧
    capitalize (stripWhitespace "todo app") ++ "App.swift" = "TodoappApp.swift" ∧
    ("todoappApp.swift" : String) ≠ "TodoappApp.swift" := by
  refine ⟨by decide, by decide, by decide⟩

/-- C8 amended: the iOS app-entry file is named from the project name with
all whitespace stripped and the original letter case preserved (capitalize
is applied to screen ids only); the Android and web entry files have the
fixed names MainActivity.kt and App.tsx. -/
theorem c8_entry_file_naming (project : Project) :
    ((generateSwiftUI project).map GeneratedFile.path).head? =
      some (stripWhitespace project.name ++ "App.swift") ∧
    ((generateJetpackCompose project).map GeneratedFile.path).head? =
      some "MainActivity.kt" ∧
    ((generateReact project).map GeneratedFile.path).head? = some "App.tsx" := by
  refine ⟨?_, ?_, ?_⟩ <;> simp [generateSwiftUI, generateJetpackCompose, generateReact]

theorem targetFiles_unrecognized (p : Project) (t : String)
    (h1 : t ≠ "ios") (h2 : t ≠ "android") (h3 : t ≠ "web") (h4 : t ≠ "desktop") :
    targetFiles p t = [] := by
  unfold targetFiles
  split <;> simp_all

/-- C1 counterexample: a request whose only target is the unrecognized
value "tv" gets a results list of length 1 - a GenerationResult with
success true, platform "tv" and an empty files list IS produced for the
unrecognized target, instead of the results list holding entries for
recognized targets only (which here would be empty). -/
theorem c1_counterexample :
    (postGenerate c1Body "T").toOption.map
        (fun r => r.results.map (fun g => (g.platform, g.files.length, g.success))) =
      some [("tv", 0, true)] ∧
    (postGenerate c1Body "T").toOption.map (fun r => r.results.length) ≠ some 0 := by
  refine ⟨by decide, by decide⟩

/-- C1 amended: the handler reports no error for an unrecognized target,
but it does not skip it either: the results list holds one entry per
requested target, recognized or not, and the entry of an unrecognized
target carries success true and an empty files list. -/
theorem c1_unrecognized_target_entry (name : String) (version : Option String)
    (targets : List String) (screens : List Screen) (theme : Theme)
    (nav : Option Navigation) (pc : Option PlatformConfig) (now : String)
    (hname : name ≠ "") :
    ∃ resp : GenResponse,
      postGenerate { name := some name, version := version, targets := some targets,
                     screens := some screens, theme := some theme, navigation := nav,
                     platformConfig := pc } now = .ok resp ∧
      resp.results.length = targets.length ∧
      resp.results.map GenResult.platform = targets ∧
      ∀ r ∈ resp.results, r.success = true ∧
        (r.platform ≠ "ios" → r.platform ≠ "android" → r.platform ≠ "web" →
          r.platform ≠ "desktop" → r.files = []) := by
  unfold postGenerate
  dsimp only
  rw [if_neg hname]
  refine ⟨_, rfl, by simp, by simp [Function.comp_def], ?_⟩
  intro r hr
  simp only [List.mem_map] at hr
  obtain ⟨t, ht, rfl⟩ := hr
  refine ⟨rfl, fun h1 h2 h3 h4 => ?_⟩
  exact targetFiles_unrecognized _ t h1 h2 h3 h4

/-- C1 witness: the amended statement at the concrete body whose only
target is "tv". -/
theorem c1_unrecognized_target_entry_witness :
    ("A" : String) ≠ "" ∧
    ∃ resp : GenResponse, postGenerate c1Body "T" = .ok resp ∧
      resp.results.length = 1 ∧ resp.results.map GenResult.platform = ["tv"] := by
  have h := c1_unrecognized_target_entry "A" none ["tv"] [] {} none none "T" (by decide)
  obtain ⟨resp, h1, h2, h3, _⟩ := h
  exact ⟨by decide, resp, h1, by simpa using h2, h3⟩

/-- C2: the guard of POST /generate does not test version: a request body
with name, targets, screens and theme present but no version field passes
the guard and generation proceeds (one result is produced), although the
served schema document lists version among the required fields and the
guard's own error message names only the other four. -/
theorem c2_version_not_checked :
    c2Body.version = none ∧
    "version" ∈ schemaRequired ∧
    (postGenerate c2Body "T").isOk = true ∧
    (postGenerate c2Body "T").toOption.map (fun r => r.results.length) = some 1 ∧
    missingFieldsError.error = "Missing required fields: name, targets, screens, theme" := by
  refine ⟨rfl, by decide, by decide, by decide, rfl⟩

/-- C3: the SwiftUI fragment translator has no recursion-depth guard: on
the malformed tree whose root lists itself as a child, the translation
fails to complete within ANY stack budget - for every fuel value the
fueled evaluation is cut off instead of returning a bounded, reported
failure. -/
theorem c3_cycle_exhausts_any_budget (fuel : Nat) :
    genSwiftFuelNode cycleGraph fuel 0 = none := by
  induction fuel with
  | zero => simp [genSwiftFuelNode]
  | succ f ih =>
    simp only [cycleGraph] at ih
    simp [genSwiftFuelNode, cycleGraph, optionsAll, ih]

/-- C7 counterexample: the web translator has no slider case: a slider
capsule with no value prop falls to the default branch and yields the
placeholder fragment, which contains no percent sign at all - not the
"50%" width expression the claim states for the web fragment. -/
theorem c7_web_slider_counterexample :
    sliderNoValue.capsuleId = "slider" ∧
    sliderNoValue.props.value = none ∧
    generateReactComponent (some sliderNoValue) none =
      "<div>\x7b/* TODO: slider */\x7d</div>" ∧
    (generateReactComponent (some sliderNoValue) none).data.contains '%' = false := by
  exact ⟨rfl, rfl, by decide, by decide⟩

/-- C7 amended: with no value prop the 50% default is rendered as the 0.5
fraction in the iOS and Android fragments for both progress and slider,
and as the literal "50%" width expression in the web fragment for progress
only; the web translator has no slider mapping, so a slider falls to the
generic container or placeholder fallback. -/
theorem c7_default_normalization (theme : Option Theme) (c : Capsule)
    (hv : c.props.value = none) :
    (c.capsuleId = "progress" →
      generateSwiftUIComponent (some c) theme =
        strCat ["ProgressView(value: ", "0.5", ")\n            .progressViewStyle(.linear)"] ∧
      generateComposeComponent (some c) theme =
        strCat ["LinearProgressIndicator(\n            progress = \x7b ", "0.5",
          "f \x7d,\n            modifier = Modifier.fillMaxWidth()\n        )"] ∧
      generateReactComponent (some c) theme =
        strCat ["<div className=\"w-full bg-gray-200 rounded-full h-2\">\n        <div className=\"bg-primary h-2 rounded-full\" style=\x7b\x7b width: \x27",
          "50", "%\x27 \x7d\x7d />\n      </div>"]) ∧
    (c.capsuleId = "slider" →
      generateSwiftUIComponent (some c) theme =
        strCat ["Slider(value: .constant(", "0.5", "), in: ",
          toString (jsOrInt c.props.min 0), "...", toString (jsOrInt c.props.max 100), ")"] ∧
      generateComposeComponent (some c) theme =
        strCat ["var value by remember \x7b mutableFloatStateOf(", "0.5",
          "f) \x7d\n        Slider(\n            value = value,\n            onValueChange = \x7b value = it \x7d,\n            valueRange = ",
          toString (jsOrInt c.props.min 0), "f..", toString (jsOrInt c.props.max 100), "f\n        )"] ∧
      generateReactComponent (some c) theme =
        (if (!c.children.isEmpty) then
          strCat ["<div className=\"space-y-4\">\n        ",
            String.intercalate "\n        " (reactChildFrags c.children theme), "\n      </div>"]
        else strCat ["<div>\x7b/* TODO: ", "slider", " */\x7d</div>"])) := by
  cases c with
  | mk i cid props children =>
    simp only [Capsule.props] at hv
    simp only [Capsule.capsuleId, Capsule.props, Capsule.children]
    have h05 : div100Str (jsOrInt none 50) = "0.5" := by decide
    have h50 : toString (jsOrInt (none : Option Int) 50) = "50" := by decide
    constructor
    · rintro rfl
      refine ⟨?_, ?_, ?_⟩
      · simp only [generateSwiftUIComponent, generateSwiftUIComponentN, swiftUISwitch, hv, h05]
      · simp only [generateComposeComponent, generateComposeComponentN, composeSwitch, hv, h05]
      · simp only [generateReactComponent, generateReactComponentN, reactSwitch, hv, h50]
    · rintro rfl
      refine ⟨?_, ?_, ?_⟩
      · simp only [generateSwiftUIComponent, generateSwiftUIComponentN, swiftUISwitch, hv, h05]
      · simp only [generateComposeComponent, generateComposeComponentN, composeSwitch, hv, h05]
      · simp only [generateReactComponent, generateReactComponentN, reactSwitch]
        rfl

/-- C7 witness: the amended statement at a concrete progress capsule with
no value prop. -/
theorem c7_default_normalization_witness :
    progNoValue.props.value = none ∧
    generateSwiftUIComponent (some progNoValue) none =
      strCat ["ProgressView(value: ", "0.5", ")\n            .progressViewStyle(.linear)"] := by
  refine ⟨rfl, ?_⟩
  exact ((c7_default_normalization none progNoValue rfl).1 rfl).1

/-- C9: generation is deterministic modulo the timestamp: two runs of the
handler on the same body agree everywhere (paths, contents, metadata,
summary) once every generatedAt field is erased. -/
theorem c9_deterministic_modulo_timestamp (body : ReqBody) (t1 t2 : String) :
    eraseTimestamps (postGenerate body t1) = eraseTimestamps (postGenerate body t2) := by
  obtain ⟨n, v, tg, sc, th, nv, pc⟩ := body
  cases n <;> cases tg <;> cases sc <;> cases th <;>
    first
      | rfl
      | (unfold postGenerate
         dsimp only
         split
         · rfl
         · simp only [eraseTimestamps, eraseResultTimestamp, List.map_map,
             List.foldl_map, List.length_map]
           rfl)

/-- C10: for progress and slider capsules an explicit value prop of 0 is
indistinguishable from an absent one: every backend emits exactly the
fragment it emits for the absent-value default, because the JS default
substitution replaces every falsy value, so an explicit 0% cannot be
expressed. -/
theorem c10_zero_value_defaults (theme : Option Theme) (c : Capsule)
    (h : c.capsuleId = "progress" ∨ c.capsuleId = "slider") :
    generateSwiftUIComponent (some (withValue c (some 0))) theme =
      generateSwiftUIComponent (some (withValue c none)) theme ∧
    generateComposeComponent (some (withValue c (some 0))) theme =
      generateComposeComponent (some (withValue c none)) theme ∧
    generateReactComponent (some (withValue c (some 0))) theme =
      generateReactComponent (some (withValue c none)) theme := by
  cases c with
  | mk i cid props children =>
    simp only [Capsule.capsuleId] at h
    rcases h with rfl | rfl <;> exact ⟨rfl, rfl, rfl⟩

/-- C10 witness: the statement at a concrete progress capsule. -/
theorem c10_zero_value_defaults_witness :
    (progNoValue.capsuleId = "progress" ∨ progNoValue.capsuleId = "slider") ∧
    generateSwiftUIComponent (some (withValue progNoValue (some 0))) none =
      generateSwiftUIComponent (some (withValue progNoValue none)) none ∧
    generateComposeComponent (some (withValue progNoValue (some 0))) none =
      generateComposeComponent (some (withValue progNoValue none)) none ∧
    generateReactComponent (some (withValue progNoValue (some 0))) none =
      generateReactComponent (some (withValue progNoValue none)) none :=
  ⟨Or.inl rfl, c10_zero_value_defaults none progNoValue (Or.inl rfl)⟩
